import Mathlib

/-!
Shallow embedding of the `GasOptimizer` component of
`smart-yield-optimizer-aiagent` (`src/lib/openserv.ts`, the gas-optimizer
document: class `GasOptimizer`, lines 144-234 of the concatenated file).

Conventions of the embedding:
* JS numbers that hold gas prices and averages are modelled as exact
  rationals (`ℚ`); bigints and block numbers as `Int`/`Nat`.
* `null` values (`baseFeePerGas`, `gasPrice`) are modelled as `Option Int`;
  the JS coercion `Number(null) = 0` is the function `jsNumber`.
* The injected ethers provider is a record of three accessors, each of
  which may fail (a thrown JS error is `Except.error` carrying the message).
* `Math.random()` is modelled by an ambient stream `rand : Nat → ℚ`; the
  k-th call of the fetch loop reads `rand k` (`k` counts pushed samples,
  which is exactly how often the source calls `Math.random`).
* `Date.prototype.getHours` depends on the host timezone; it is modelled
  by `getHoursTz tzOffsetMin ms`, the hour-of-day of `ms` shifted by the
  host's UTC offset in minutes (constant-offset model, no DST).
  `getHoursTz 0` is the UTC hour (`getUTCHours`).
-/

namespace GasSampler

/-- A chain block as consumed by the optimizer: `{timestamp: unix-seconds,
baseFeePerGas: bigint | null}`. -/
structure Block where
  timestamp : Int
  baseFeePerGas : Option Int
deriving DecidableEq

/-- Result of `provider.getFeeData()`: `gasPrice: bigint | null`. -/
structure FeeData where
  gasPrice : Option Int
deriving DecidableEq

/-- `interface GasData` (source lines 130-134). -/
structure GasData where
  timestamp : Int
  price : ℚ
  priority : ℚ
deriving DecidableEq

/-- `interface GasRecommendation` (source lines 136-142).
`estimatedSavings` keeps the numeric value of `potentialSavings`; the
source renders it with `toFixed(1)` into a display string, which is
presentation only. -/
structure GasRecommendation where
  bestTime : String
  estimatedSavings : ℚ
  currentGwei : Int
  historicalLow : Int
  batchingRecommendation : String
deriving DecidableEq

/-- The injected `ethers.BrowserProvider`, reduced to the three accessors
the optimizer uses. A failing read is `Except.error msg`. -/
structure Provider where
  blockNumber : Except String Int
  getBlock : Int → Except String (Option Block)
  feeData : Except String FeeData

/-- Errors the optimizer can raise. The source throws
`new Error('Gas optimizer not initialized')` (`uninitialized`) and lets
provider errors propagate from `getFeeData` (`fetchFailure`). -/
inductive GasError where
  | uninitialized
  | fetchFailure (msg : String)
deriving DecidableEq

/-- Mutable state of the singleton: `historicalData` and `provider`
(source lines 146-147). -/
structure OptimizerState where
  historicalData : List GasData
  provider : Option Provider

/-- The fresh singleton state: empty window, no provider. -/
def initState : OptimizerState := { historicalData := [], provider := none }

/-- JS `Number` applied to `bigint | null`: `Number(null) = 0`. -/
def jsNumber : Option Int → Int
  | none => 0
  | some n => n

/-- JS `Math.round`: round half up, `⌊x + 0.5⌋`. -/
def jsRound (q : ℚ) : Int := ⌊q + 1/2⌋

/-- JS `Math.min(...xs)` on a list; the empty case (JS would yield
`Infinity`) is unreachable behind the non-empty-window guard. -/
def listMin : List ℚ → ℚ
  | [] => 0
  | x :: xs => xs.foldl min x

/-- One sample pushed by the fetch loop (source lines 174-178):
`timestamp = block.timestamp * 1000`, `price = Number(baseFeePerGas)/1e9`,
`priority = Math.random() * 2 + 0.5` with `r` the random draw. -/
def mkSample (r : ℚ) (b : Block) : GasData :=
  { timestamp := b.timestamp * 1000
  , price := (jsNumber b.baseFeePerGas : ℚ) / 1000000000
  , priority := r * 2 + 1/2 }

/-- The fetch loop of `updateHistoricalData` (source lines 171-180) over
the remaining loop indices `l`, accumulated samples `acc`.  Returns the
list of block numbers actually requested together with either the final
sample list or the first thrown error (which aborts the loop).  A block
returned as `null` is skipped; a retrieved block is pushed. -/
def fetchGo (p : Provider) (rand : Nat → ℚ) (head : Int) :
    List Nat → List GasData → List Int × Except String (List GasData)
  | [], acc => ([], .ok acc)
  | i :: rest, acc =>
    match p.getBlock (head - (i : Int)) with
    | .error e => ([head - (i : Int)], .error e)
    | .ok none =>
        let r := fetchGo p rand head rest acc
        ((head - (i : Int)) :: r.1, r.2)
    | .ok (some b) =>
        let r := fetchGo p rand head rest (acc ++ [mkSample (rand acc.length) b])
        ((head - (i : Int)) :: r.1, r.2)

/-- `updateHistoricalData` (source lines 163-186).  Without a provider it
returns immediately; the whole body sits in `try { ... } catch { log }`,
so a failing `getBlockNumber` or a throwing `getBlock` leaves
`historicalData` unchanged and raises nothing.  On success the window is
replaced wholesale. -/
def updateHistoricalData (rand : Nat → ℚ) (s : OptimizerState) : OptimizerState :=
  match s.provider with
  | none => s
  | some p =>
    match p.blockNumber with
    | .error _ => s
    | .ok head =>
      match (fetchGo p rand head (List.range 100) []).2 with
      | .error _ => s
      | .ok blocks => { s with historicalData := blocks }

/-- `initialize(provider)` (source lines 158-161): store the provider,
then refresh the window.  `updateHistoricalData` never throws, so neither
does this. -/
def initializeGas (p : Provider) (rand : Nat → ℚ) (s : OptimizerState) : OptimizerState :=
  updateHistoricalData rand { s with provider := some p }

/-- `new Date(ms).getHours()` under a host timezone that is `tzOffsetMin`
minutes ahead of UTC (constant-offset model): floor-divide the shifted
epoch milliseconds into hours, reduce mod 24.  `getHoursTz 0` is
`getUTCHours`. -/
def getHoursTz (tzOffsetMin : Int) (ms : Int) : Int :=
  (Int.fdiv (ms + tzOffsetMin * 60000) 3600000).emod 24

/-- Per-hour bucket of the `hourlyAverages` array (source lines 200-205):
running sum and count of the samples whose local hour is `h`. -/
def hourStats (tz : Int) (w : List GasData) (h : Int) : ℚ × Nat :=
  w.foldl
    (fun st d => if getHoursTz tz d.timestamp = h then (st.1 + d.price, st.2 + 1) else st)
    (0, 0)

/-- `current.count > 0 ? current.sum / current.count : Infinity`
(source line 208); `none` stands for `Infinity`. -/
def bucketAvg (tz : Int) (w : List GasData) (h : Nat) : Option ℚ :=
  let st := hourStats tz w (h : Int)
  if 0 < st.2 then some (st.1 / (st.2 : ℚ)) else none

/-- IEEE `<` restricted to the values the reduce compares: finite numbers
and `Infinity` (`none`); `Infinity < Infinity` is false. -/
def infLt : Option ℚ → Option ℚ → Bool
  | some a, some b => decide (a < b)
  | some _, none => true
  | none, _ => false

/-- The `reduce` selecting the best hour (source lines 207-210):
accumulator starts at `{hour: 0, avg: Infinity}`, strict `<` keeps the
earliest minimum, hours iterate 0..23. -/
def bestHour (tz : Int) (w : List GasData) : Nat :=
  ((List.range 24).foldl
    (fun best h => if infLt (bucketAvg tz w h) best.2 then (h, bucketAvg tz w h) else best)
    ((0 : Nat), (none : Option ℚ))).1

/-- `Number(currentFeeData.gasPrice) / 1e9` (source line 194). -/
def currentGweiOf (fd : FeeData) : ℚ := (jsNumber fd.gasPrice : ℚ) / 1000000000

/-- `reduce((sum, d) => sum + d.price, 0) / length` (source line 197).
Division by zero (empty window) is behind the non-empty guard. -/
def meanPrice (w : List GasData) : ℚ :=
  (w.foldl (fun sum d => sum + d.price) 0) / (w.length : ℚ)

/-- The pure body of `getGasRecommendation` past the guards and the fee
read (source lines 196-226). `1.2` is the rational 6/5. -/
def recommendOf (tz : Int) (w : List GasData) (fd : FeeData) : GasRecommendation :=
  let currentGwei := currentGweiOf fd
  let historicalLow := listMin (w.map GasData.price)
  let avgPrice := meanPrice w
  let bh := bestHour tz w
  let potentialSavings := ((currentGwei - historicalLow) / currentGwei) * 100
  { bestTime := toString bh ++ ":00 - " ++ toString ((bh + 1) % 24) ++ ":00 UTC"
  , estimatedSavings := potentialSavings
  , currentGwei := jsRound currentGwei
  , historicalLow := jsRound historicalLow
  , batchingRecommendation :=
      if currentGwei > avgPrice * (6/5)
      then "Batching transactions recommended for optimal gas savings"
      else "Individual transactions acceptable at current gas prices" }

/-- `getGasRecommendation` (source lines 188-227): guard
`!provider || historicalData.length === 0`, then the live `getFeeData`
read (whose failure propagates), then the pure computation. -/
def getGasRecommendation (tz : Int) (s : OptimizerState) :
    Except GasError GasRecommendation :=
  match s.provider with
  | none => .error .uninitialized
  | some p =>
    if s.historicalData.length = 0 then .error .uninitialized
    else
      match p.feeData with
      | .error e => .error (.fetchFailure e)
      | .ok fd => .ok (recommendOf tz s.historicalData fd)

/-- `getHistoricalData` (source lines 229-231): returns the window
verbatim, with no guard and no failure path. -/
def getHistoricalData (s : OptimizerState) : List GasData :=
  s.historicalData

/-! ### Basic lemmas about the embedding -/

theorem range24 :
    List.range 24 = [0,1,2,3,4,5,6,7,8,9,10,11,12,13,14,15,16,17,18,19,20,21,22,23] := by
  decide

/-- Past the guards and a successful fee read the recommendation is the
pure computation on the stored window. -/
theorem getRec_eq (tz : Int) (s : OptimizerState) (p : Provider) (fd : FeeData)
    (hp : s.provider = some p) (hw : s.historicalData ≠ []) (hfd : p.feeData = .ok fd) :
    getGasRecommendation tz s = .ok (recommendOf tz s.historicalData fd) := by
  unfold getGasRecommendation
  rw [hp]
  simp only [hfd]
  rw [if_neg (by simpa [List.length_eq_zero] using hw)]

theorem recommendOf_bestTime (tz : Int) (w : List GasData) (fd : FeeData) :
    (recommendOf tz w fd).bestTime =
      toString (bestHour tz w) ++ ":00 - " ++ toString ((bestHour tz w + 1) % 24) ++ ":00 UTC" :=
  rfl

theorem recommendOf_estimatedSavings (tz : Int) (w : List GasData) (fd : FeeData) :
    (recommendOf tz w fd).estimatedSavings =
      ((currentGweiOf fd - listMin (w.map GasData.price)) / currentGweiOf fd) * 100 :=
  rfl

theorem recommendOf_historicalLow (tz : Int) (w : List GasData) (fd : FeeData) :
    (recommendOf tz w fd).historicalLow = jsRound (listMin (w.map GasData.price)) :=
  rfl

theorem recommendOf_batching (tz : Int) (w : List GasData) (fd : FeeData) :
    (recommendOf tz w fd).batchingRecommendation =
      if currentGweiOf fd > meanPrice w * (6/5)
      then "Batching transactions recommended for optimal gas savings"
      else "Individual transactions acceptable at current gas prices" :=
  rfl

theorem foldl_min_le_init (l : List ℚ) : ∀ a : ℚ, l.foldl min a ≤ a := by
  induction l with
  | nil => intro a; simp
  | cons b l ih =>
    intro a
    simpa using le_trans (ih (min a b)) (min_le_left a b)

theorem foldl_min_le_mem (l : List ℚ) : ∀ a x : ℚ, x ∈ l → l.foldl min a ≤ x := by
  induction l with
  | nil => intro a x hx; cases hx
  | cons b l ih =>
    intro a x hx
    rcases List.mem_cons.mp hx with h | h
    · subst h
      simpa using le_trans (foldl_min_le_init l (min a x)) (min_le_right a x)
    · simpa using ih (min a b) x h

/-- `Math.min` over a non-empty list is a lower bound of all its members. -/
theorem listMin_le_mem (l : List ℚ) (x : ℚ) (hx : x ∈ l) : listMin l ≤ x := by
  match l, hx with
  | a :: l, hx =>
    rcases List.mem_cons.mp hx with h | h
    · subst h; exact foldl_min_le_init l x
    · exact foldl_min_le_mem l a x h

theorem foldl_min_const (l : List ℚ) : ∀ a c : ℚ, a = c → (∀ x ∈ l, x = c) →
    l.foldl min a = c := by
  induction l with
  | nil => intro a c ha _; simpa using ha
  | cons b l ih =>
    intro a c ha hl
    have hb : b = c := hl b (List.mem_cons_self b l)
    have : min a b = c := by rw [ha, hb, min_self]
    exact ih (min a b) c this (fun x hx => hl x (List.mem_cons_of_mem b hx))

/-- `Math.min` over a non-empty constant list is that constant. -/
theorem listMin_const (l : List ℚ) (c : ℚ) (hne : l ≠ []) (hl : ∀ x ∈ l, x = c) :
    listMin l = c := by
  match l, hne with
  | a :: l, _ =>
    exact foldl_min_const l a c (hl a (List.mem_cons_self a l))
      (fun x hx => hl x (List.mem_cons_of_mem a hx))

/-! ### Lemmas about the block-fetch loop -/

/-- The block numbers actually requested form a sublist of the planned
descending sequence: aborting early never inserts or repeats a request. -/
theorem fetchGo_attempts_sublist (p : Provider) (rand : Nat → ℚ) (head : Int) :
    ∀ (l : List Nat) (acc : List GasData),
      List.Sublist (fetchGo p rand head l acc).1 (l.map (fun i : Nat => head - (i : Int))) := by
  intro l
  induction l with
  | nil => intro acc; simp [fetchGo]
  | cons i rest ih =>
    intro acc
    cases hb : p.getBlock (head - (i : Int)) with
    | error e =>
      simp only [fetchGo, hb, List.map_cons]
      exact (List.nil_sublist _).cons₂ _
    | ok ob =>
      cases ob with
      | none =>
        simp only [fetchGo, hb, List.map_cons]
        exact (ih acc).cons₂ _
      | some b =>
        simp only [fetchGo, hb, List.map_cons]
        exact (ih (acc ++ [mkSample (rand acc.length) b])).cons₂ _

/-- No block number is ever requested twice in one refresh. -/
theorem fetchGo_attempts_nodup (p : Provider) (rand : Nat → ℚ) (head : Int) (n : Nat) :
    ((fetchGo p rand head (List.range n) []).1).Nodup := by
  have hinj : Function.Injective (fun i : Nat => head - (i : Int)) := by
    intro a b hab
    simp only at hab
    omega
  exact List.Nodup.sublist (fetchGo_attempts_sublist p rand head (List.range n) [])
    (List.Nodup.map hinj (List.nodup_range n))

/-- At most one request per loop index. -/
theorem fetchGo_attempts_length (p : Provider) (rand : Nat → ℚ) (head : Int)
    (l : List Nat) (acc : List GasData) :
    (fetchGo p rand head l acc).1.length ≤ l.length := by
  have h := (fetchGo_attempts_sublist p rand head l acc).length_le
  have h2 : (l.map (fun i : Nat => head - (i : Int))).length = l.length := List.length_map _ _
  exact h2 ▸ h

/-- A completed fetch loop adds at most one sample per loop index. -/
theorem fetchGo_ok_length (p : Provider) (rand : Nat → ℚ) (head : Int) :
    ∀ (l : List Nat) (acc w : List GasData),
      (fetchGo p rand head l acc).2 = .ok w → w.length ≤ acc.length + l.length := by
  intro l
  induction l with
  | nil =>
    intro acc w hw
    simp only [fetchGo] at hw
    cases hw
    simp
  | cons i rest ih =>
    intro acc w hw
    cases hb : p.getBlock (head - (i : Int)) with
    | error e => simp [fetchGo, hb] at hw
    | ok ob =>
      cases ob with
      | none =>
        simp only [fetchGo, hb] at hw
        have := ih acc w hw
        simp only [List.length_cons]
        omega
      | some b =>
        simp only [fetchGo, hb] at hw
        have := ih (acc ++ [mkSample (rand acc.length) b]) w hw
        simp only [List.length_append, List.length_singleton] at this
        simp only [List.length_cons]
        omega

/-- Blocks the provider reports as not found (`null`) contribute nothing:
no placeholder sample is pushed. -/
theorem fetchGo_all_none (p : Provider) (rand : Nat → ℚ) (head : Int) :
    ∀ (l : List Nat) (acc : List GasData),
      (∀ i ∈ l, p.getBlock (head - (i : Int)) = .ok none) →
      (fetchGo p rand head l acc).2 = .ok acc := by
  intro l
  induction l with
  | nil => intro acc _; simp [fetchGo]
  | cons i rest ih =>
    intro acc hnull
    have hb := hnull i (List.mem_cons_self i rest)
    simp only [fetchGo, hb]
    exact ih acc (fun j hj => hnull j (List.mem_cons_of_mem i hj))

/-- When every requested block is retrieved, the loop requests exactly the
planned descending numbers and pushes one sample per block, drawing the
random values in push order. -/
theorem fetchGo_range'_ok (p : Provider) (rand : Nat → ℚ) (head : Int) (blkFn : Nat → Block)
    (hb : ∀ i : Nat, p.getBlock (head - (i : Int)) = .ok (some (blkFn i))) :
    ∀ (n j : Nat) (acc : List GasData), acc.length = j →
      fetchGo p rand head (List.range' j n) acc
        = ((List.range' j n).map (fun i : Nat => head - (i : Int)),
           .ok (acc ++ (List.range' j n).map (fun i => mkSample (rand i) (blkFn i)))) := by
  intro n
  induction n with
  | zero => intro j acc _; simp [fetchGo, List.range']
  | succ n ih =>
    intro j acc hacc
    have hstep : List.range' j (n + 1) = j :: List.range' (j + 1) n := rfl
    rw [hstep]
    simp only [fetchGo, hb j, List.map_cons, hacc]
    rw [ih (j + 1) (acc ++ [mkSample (rand j) (blkFn j)]) (by simp [hacc])]
    simp

/-- `fetchGo` over the full loop `List.range 100` when every block is
retrieved. -/
theorem fetchGo_range_ok (p : Provider) (rand : Nat → ℚ) (head : Int) (blkFn : Nat → Block)
    (hb : ∀ i : Nat, p.getBlock (head - (i : Int)) = .ok (some (blkFn i))) :
    fetchGo p rand head (List.range 100) []
      = ((List.range 100).map (fun i : Nat => head - (i : Int)),
         .ok ((List.range 100).map (fun i => mkSample (rand i) (blkFn i)))) := by
  have h := fetchGo_range'_ok p rand head blkFn hb 100 0 [] rfl
  rw [List.range_eq_range']
  simpa using h

/-! ### Lemmas about refresh and initialization -/

theorem updateHistoricalData_provider (rand : Nat → ℚ) (s : OptimizerState) :
    (updateHistoricalData rand s).provider = s.provider := by
  unfold updateHistoricalData
  split
  · rfl
  · split
    · rfl
    · split
      · rfl
      · rfl

theorem initializeGas_provider (p : Provider) (rand : Nat → ℚ) (s : OptimizerState) :
    (initializeGas p rand s).provider = some p := by
  unfold initializeGas
  rw [updateHistoricalData_provider]

/-- A failing head-block-number read is caught inside
`updateHistoricalData`: the call returns normally with the window intact. -/
theorem initializeGas_headFail (p : Provider) (rand : Nat → ℚ) (s : OptimizerState)
    (e : String) (hbn : p.blockNumber = .error e) :
    initializeGas p rand s = { historicalData := s.historicalData, provider := some p } := by
  unfold initializeGas updateHistoricalData
  simp [hbn]

/-- A throwing block read aborts the loop, is caught, and leaves the
window intact; the call returns normally. -/
theorem initializeGas_blockFail (p : Provider) (rand : Nat → ℚ) (s : OptimizerState)
    (head : Int) (e : String) (hbn : p.blockNumber = .ok head)
    (hfg : (fetchGo p rand head (List.range 100) []).2 = .error e) :
    initializeGas p rand s = { historicalData := s.historicalData, provider := some p } := by
  unfold initializeGas updateHistoricalData
  simp [hbn, hfg]

/-- A fully successful refresh replaces the window with the fetched
samples. -/
theorem initializeGas_ok (p : Provider) (rand : Nat → ℚ) (s : OptimizerState)
    (head : Int) (w : List GasData) (hbn : p.blockNumber = .ok head)
    (hfg : (fetchGo p rand head (List.range 100) []).2 = .ok w) :
    initializeGas p rand s = { historicalData := w, provider := some p } := by
  unfold initializeGas updateHistoricalData
  simp [hbn, hfg]

/-- Either refresh leaves the window untouched (a swallowed failure) or it
is replaced by a successfully fetched sample list. -/
theorem initializeGas_window (p : Provider) (rand : Nat → ℚ) (s : OptimizerState) :
    (initializeGas p rand s).historicalData = s.historicalData
    ∨ ∃ head w, p.blockNumber = .ok head
        ∧ (fetchGo p rand head (List.range 100) []).2 = .ok w
        ∧ (initializeGas p rand s).historicalData = w := by
  cases hbn : p.blockNumber with
  | error e => left; rw [initializeGas_headFail p rand s e hbn]
  | ok head =>
    cases hfg : (fetchGo p rand head (List.range 100) []).2 with
    | error e => left; rw [initializeGas_blockFail p rand s head e hbn hfg]
    | ok w =>
      right
      exact ⟨head, w, rfl, hfg, by rw [initializeGas_ok p rand s head w hbn hfg]⟩

/-! ### Concrete fixtures used by counterexamples and witnesses -/

/-- A degenerate randomness stream. -/
def rand0 : Nat → ℚ := fun _ => 0

/-- A healthy provider: head at block 0, every block reported missing,
live gas price 20 gwei. -/
def pLive : Provider :=
  { blockNumber := .ok 0
  , getBlock := fun _ => .ok none
  , feeData := .ok { gasPrice := some 20000000000 } }

/-- A provider whose head-block-number read throws. -/
def pFailHead : Provider :=
  { blockNumber := .error "head read failed"
  , getBlock := fun _ => .ok none
  , feeData := .ok { gasPrice := some 20000000000 } }

/-- A provider whose block reads throw. -/
def pThrow : Provider :=
  { blockNumber := .ok 0
  , getBlock := fun _ => .error "rpc down"
  , feeData := .ok { gasPrice := some 20000000000 } }

/-- A provider whose live fee read throws. -/
def pFailFee : Provider :=
  { blockNumber := .ok 0
  , getBlock := fun _ => .ok none
  , feeData := .error "fee read failed" }

/-- The epoch block with a zero base fee. -/
def blk8 : Block := { timestamp := 0, baseFeePerGas := some 0 }

/-- A provider with head 1000 that returns `blk8` for every block. -/
def p8 : Provider :=
  { blockNumber := .ok 1000
  , getBlock := fun _ => .ok (some blk8)
  , feeData := .ok { gasPrice := some 20000000000 } }

/-- A provider with head 500 whose every block carries a null base fee,
live gas price 2 gwei. -/
def p10 : Provider :=
  { blockNumber := .ok 500
  , getBlock := fun _ => .ok (some { timestamp := 0, baseFeePerGas := none })
  , feeData := .ok { gasPrice := some 2000000000 } }

/-- One-sample window: a sample taken at the Unix epoch (UTC hour 0) at
10 gwei, behind the healthy provider. -/
def stA : OptimizerState :=
  { historicalData := [{ timestamp := 0, price := 10, priority := 1 }]
  , provider := some pLive }

/-- Three-sample window matching the spec's end-to-end scenario: UTC
hours 0, 0 and 5 at prices 10, 12 and 6 gwei. -/
def stB : OptimizerState :=
  { historicalData :=
      [ { timestamp := 0, price := 10, priority := 1 }
      , { timestamp := 0, price := 12, priority := 1 }
      , { timestamp := 18000000, price := 6, priority := 1 } ]
  , provider := some pLive }

/-- One-sample window whose only price is the fractional 0.5 gwei. -/
def stHalf : OptimizerState :=
  { historicalData := [{ timestamp := 0, price := 1/2, priority := 1 }]
  , provider := some pLive }

/-- One-sample window behind the provider whose fee read throws. -/
def stFee : OptimizerState :=
  { historicalData := [{ timestamp := 0, price := 10, priority := 1 }]
  , provider := some pFailFee }

/-! ### Claims -/

/-- Claim C1: for every state, calling `getGasRecommendation` when the
stored window is empty or no provider has been set fails with the
uninitialized error and never returns a partially-filled recommendation. -/
theorem claim_C1 (tz : Int) (s : OptimizerState)
    (h : s.provider = none ∨ s.historicalData = []) :
    getGasRecommendation tz s = .error .uninitialized := by
  rcases h with h | h
  · simp [getGasRecommendation, h]
  · cases hp : s.provider with
    | none => simp [getGasRecommendation, hp]
    | some p => simp [getGasRecommendation, hp, h]

/-- Witness for C1 at the fresh state (no provider, empty window). -/
theorem claim_C1_witness :
    getGasRecommendation 0 initState = .error .uninitialized :=
  claim_C1 0 initState (Or.inl rfl)

/-- Counterexample to C3 as stated: a provider whose head-block read
throws makes `initialize` return normally (the model's `initializeGas` is
a total function into states — the source catches the error and only
logs it), leaving an empty window; no explicit error reaches the caller,
who only discovers the failure later as `uninitialized`. -/
theorem claim_C3_counterexample :
    initializeGas pFailHead rand0 initState
        = { historicalData := [], provider := some pFailHead }
    ∧ getGasRecommendation 0 (initializeGas pFailHead rand0 initState)
        = .error .uninitialized := by
  have h1 : initializeGas pFailHead rand0 initState
      = { historicalData := [], provider := some pFailHead } :=
    initializeGas_headFail pFailHead rand0 initState "head read failed" rfl
  exact ⟨h1, by rw [h1]; rfl⟩

/-- Claim C3 (amended): a failure of the live fee read in
`getGasRecommendation` surfaces to the immediate caller as an explicit
fetch-failure error, but failures of the head-block read or of any block
read during `initialize` are caught internally and leave the stored
window unchanged (the call returns normally); no block number is ever
requested twice, so nothing is retried. -/
theorem claim_C3 :
    (∀ (tz : Int) (s : OptimizerState) (p : Provider) (e : String),
        s.provider = some p → s.historicalData ≠ [] → p.feeData = .error e →
        getGasRecommendation tz s = .error (.fetchFailure e))
    ∧ (∀ (p : Provider) (rand : Nat → ℚ) (s : OptimizerState) (e : String),
        p.blockNumber = .error e →
        initializeGas p rand s
          = { historicalData := s.historicalData, provider := some p })
    ∧ (∀ (p : Provider) (rand : Nat → ℚ) (s : OptimizerState) (head : Int) (e : String),
        p.blockNumber = .ok head →
        (fetchGo p rand head (List.range 100) []).2 = .error e →
        initializeGas p rand s
          = { historicalData := s.historicalData, provider := some p })
    ∧ (∀ (p : Provider) (rand : Nat → ℚ) (head : Int),
        ((fetchGo p rand head (List.range 100) []).1).Nodup) := by
  refine ⟨?_, ?_, ?_, ?_⟩
  · intro tz s p e hp hw hfe
    unfold getGasRecommendation
    rw [hp]
    simp only [hfe]
    rw [if_neg (by simpa [List.length_eq_zero] using hw)]
  · intro p rand s e h
    exact initializeGas_headFail p rand s e h
  · intro p rand s head e h1 h2
    exact initializeGas_blockFail p rand s head e h1 h2
  · intro p rand head
    exact fetchGo_attempts_nodup p rand head 100

/-- Witness for C3 at concrete providers exercising each conjunct. -/
theorem claim_C3_witness :
    getGasRecommendation 0 stFee = .error (.fetchFailure "fee read failed")
    ∧ initializeGas pFailHead rand0 stA
        = { historicalData := stA.historicalData, provider := some pFailHead }
    ∧ initializeGas pThrow rand0 stA
        = { historicalData := stA.historicalData, provider := some pThrow }
    ∧ ((fetchGo pThrow rand0 0 (List.range 100) []).1).Nodup :=
  ⟨claim_C3.1 0 stFee pFailFee "fee read failed" rfl (by simp [stFee]) rfl,
   claim_C3.2.1 pFailHead rand0 stA "head read failed" rfl,
   claim_C3.2.2.1 pThrow rand0 stA 0 "rpc down" rfl (by rfl),
   claim_C3.2.2.2 pThrow rand0 0⟩

/-- Claim C7: a refresh keeps the window's length at most 100; blocks the
provider reports as missing are omitted without any placeholder; a failed
retrieval never extends the count of 100 fetch attempts. -/
theorem claim_C7 :
    (∀ (p : Provider) (rand : Nat → ℚ) (s : OptimizerState),
        s.historicalData.length ≤ 100 →
        (initializeGas p rand s).historicalData.length ≤ 100)
    ∧ (∀ (p : Provider) (rand : Nat → ℚ) (head : Int) (w : List GasData),
        (fetchGo p rand head (List.range 100) []).2 = .ok w → w.length ≤ 100)
    ∧ (∀ (p : Provider) (rand : Nat → ℚ) (head : Int) (l : List Nat) (acc : List GasData),
        (∀ i ∈ l, p.getBlock (head - (i : Int)) = .ok none) →
        (fetchGo p rand head l acc).2 = .ok acc)
    ∧ (∀ (p : Provider) (rand : Nat → ℚ) (head : Int) (l : List Nat) (acc : List GasData),
        (fetchGo p rand head l acc).1.length ≤ l.length) := by
  refine ⟨?_, ?_, ?_, ?_⟩
  · intro p rand s hlen
    rcases initializeGas_window p rand s with h | ⟨head, w, _, hfg, h⟩
    · rw [h]; exact hlen
    · rw [h]
      have := fetchGo_ok_length p rand head (List.range 100) [] w hfg
      simpa using this
  · intro p rand head w hfg
    have := fetchGo_ok_length p rand head (List.range 100) [] w hfg
    simpa using this
  · intro p rand head l acc hnull
    exact fetchGo_all_none p rand head l acc hnull
  · intro p rand head l acc
    exact fetchGo_attempts_length p rand head l acc

/-- Witness for C7 at the healthy provider (all blocks missing). -/
theorem claim_C7_witness :
    (initializeGas pLive rand0 initState).historicalData.length ≤ 100
    ∧ ([] : List GasData).length ≤ 100
    ∧ (fetchGo pLive rand0 0 (List.range 100) []).2 = .ok []
    ∧ (fetchGo pLive rand0 0 (List.range 100) []).1.length ≤ 100 :=
  ⟨claim_C7.1 pLive rand0 initState (by simp [initState]),
   claim_C7.2.1 pLive rand0 0 []
     (claim_C7.2.2.1 pLive rand0 0 (List.range 100) [] (fun _ _ => rfl)),
   claim_C7.2.2.1 pLive rand0 0 (List.range 100) [] (fun _ _ => rfl),
   claim_C7.2.2.2 pLive rand0 0 (List.range 100) []⟩

/-- Counterexample to C9 as stated: at the fresh state (before any
`initialize`) `getHistoricalData` does not fail; it returns the empty
window as a value. -/
theorem claim_C9_counterexample : getHistoricalData initState = [] := rfl

/-- Claim C9 (amended): `getHistoricalData` never fails: before any
successful `initialize` it returns the current (empty) window, and in
every state it returns the current window verbatim. -/
theorem claim_C9 :
    getHistoricalData initState = []
    ∧ ∀ s : OptimizerState, getHistoricalData s = s.historicalData :=
  ⟨rfl, fun _ => rfl⟩

/-- Claim C4: for every non-empty window and successful live read with a
nonzero current price, `estimatedSavings` equals
`(currentGwei - historicalLow) / currentGwei * 100`; it is 0 when the
current price equals the historical low, and it is negative (yet still a
normally returned result) when the current price is below the historical
low. -/
theorem claim_C4 (tz : Int) (s : OptimizerState) (p : Provider) (fd : FeeData)
    (hp : s.provider = some p) (hw : s.historicalData ≠ []) (hfd : p.feeData = .ok fd)
    (_hc : currentGweiOf fd ≠ 0) :
    ∃ r, getGasRecommendation tz s = .ok r
      ∧ r.estimatedSavings
          = ((currentGweiOf fd - listMin (s.historicalData.map GasData.price))
              / currentGweiOf fd) * 100
      ∧ (currentGweiOf fd = listMin (s.historicalData.map GasData.price) →
          r.estimatedSavings = 0)
      ∧ (0 < currentGweiOf fd →
          currentGweiOf fd < listMin (s.historicalData.map GasData.price) →
          r.estimatedSavings < 0) := by
  refine ⟨recommendOf tz s.historicalData fd, getRec_eq tz s p fd hp hw hfd,
    recommendOf_estimatedSavings tz s.historicalData fd, ?_, ?_⟩
  · intro heq
    rw [recommendOf_estimatedSavings, heq, sub_self, zero_div, zero_mul]
  · intro h0 hlt
    rw [recommendOf_estimatedSavings]
    have hnum : currentGweiOf fd - listMin (s.historicalData.map GasData.price) < 0 :=
      sub_neg.mpr hlt
    exact mul_neg_of_neg_of_pos (div_neg_of_neg_of_pos hnum h0) (by norm_num)

/-- Witness for C4 at a 10-gwei single-sample window and a 20-gwei live
price (savings 50%). -/
theorem claim_C4_witness :
    ∃ r, getGasRecommendation 0 stA = .ok r
      ∧ r.estimatedSavings
          = ((currentGweiOf { gasPrice := some 20000000000 }
              - listMin (stA.historicalData.map GasData.price))
              / currentGweiOf { gasPrice := some 20000000000 }) * 100
      ∧ (currentGweiOf { gasPrice := some 20000000000 }
            = listMin (stA.historicalData.map GasData.price) →
          r.estimatedSavings = 0)
      ∧ (0 < currentGweiOf { gasPrice := some 20000000000 } →
          currentGweiOf { gasPrice := some 20000000000 }
            < listMin (stA.historicalData.map GasData.price) →
          r.estimatedSavings < 0) :=
  claim_C4 0 stA pLive { gasPrice := some 20000000000 } rfl (by simp [stA]) rfl
    (by norm_num [currentGweiOf, jsNumber])

/-- Claim C5: for every non-empty window and successful live read, the
batching advice is the batch message exactly when
`currentGwei > 1.2 * mean(window prices)`, and the boundary case of
equality yields the individual message. -/
theorem claim_C5 (tz : Int) (s : OptimizerState) (p : Provider) (fd : FeeData)
    (hp : s.provider = some p) (hw : s.historicalData ≠ []) (hfd : p.feeData = .ok fd) :
    ∃ r, getGasRecommendation tz s = .ok r
      ∧ (r.batchingRecommendation
            = "Batching transactions recommended for optimal gas savings"
          ↔ currentGweiOf fd > meanPrice s.historicalData * (6/5))
      ∧ (currentGweiOf fd = meanPrice s.historicalData * (6/5) →
          r.batchingRecommendation
            = "Individual transactions acceptable at current gas prices") := by
  have hne : ("Individual transactions acceptable at current gas prices" : String)
      ≠ "Batching transactions recommended for optimal gas savings" := by decide
  refine ⟨recommendOf tz s.historicalData fd, getRec_eq tz s p fd hp hw hfd, ?_, ?_⟩
  · rw [recommendOf_batching]
    by_cases h : currentGweiOf fd > meanPrice s.historicalData * (6/5)
    · rw [if_pos h]
      exact iff_of_true rfl h
    · rw [if_neg h]
      exact iff_of_false hne h
  · intro heq
    rw [recommendOf_batching, if_neg (by rw [heq]; exact lt_irrefl _)]

/-- Witness for C5 at a 10-gwei single-sample window with a 20-gwei live
price (`20 > 12`, so batching is advised). -/
theorem claim_C5_witness :
    ∃ r, getGasRecommendation 0 stA = .ok r
      ∧ (r.batchingRecommendation
            = "Batching transactions recommended for optimal gas savings"
          ↔ currentGweiOf { gasPrice := some 20000000000 }
              > meanPrice stA.historicalData * (6/5))
      ∧ (currentGweiOf { gasPrice := some 20000000000 }
            = meanPrice stA.historicalData * (6/5) →
          r.batchingRecommendation
            = "Individual transactions acceptable at current gas prices") :=
  claim_C5 0 stA pLive { gasPrice := some 20000000000 } rfl (by simp [stA]) rfl

/-- Counterexample to C6 as stated: on a window whose only sample costs
0.5 gwei, the returned `historicalLow` field is `Math.round(0.5) = 1`,
which is neither the window minimum (0.5) nor below every sample's
price. -/
theorem claim_C6_counterexample :
    (getGasRecommendation 0 stHalf).toOption.map GasRecommendation.historicalLow = some 1
    ∧ stHalf.historicalData.map GasData.price = [1/2]
    ∧ ¬ ((1 : ℚ) ≤ 1/2) := by
  have h := getRec_eq 0 stHalf pLive { gasPrice := some 20000000000 } rfl
    (by simp [stHalf]) rfl
  refine ⟨?_, rfl, by norm_num⟩
  rw [h]
  simp only [Except.toOption, Option.map]
  rw [recommendOf_historicalLow]
  have hmin : listMin (stHalf.historicalData.map GasData.price) = 1/2 := by
    simp [stHalf, listMin]
  rw [hmin]
  have : jsRound (1/2) = 1 := by
    unfold jsRound
    norm_num
  rw [this]

/-- Claim C6 (amended): the `historicalLow` field equals `Math.round` of
the minimum observed price of the window; the unrounded minimum is a
lower bound of every sample's price, so the rounded field is at most
every sample's price plus one half. -/
theorem claim_C6 (tz : Int) (s : OptimizerState) (p : Provider) (fd : FeeData)
    (hp : s.provider = some p) (hw : s.historicalData ≠ []) (hfd : p.feeData = .ok fd) :
    ∃ r, getGasRecommendation tz s = .ok r
      ∧ r.historicalLow = jsRound (listMin (s.historicalData.map GasData.price))
      ∧ ∀ d ∈ s.historicalData,
          listMin (s.historicalData.map GasData.price) ≤ d.price
          ∧ (r.historicalLow : ℚ) ≤ d.price + 1/2 := by
  refine ⟨recommendOf tz s.historicalData fd, getRec_eq tz s p fd hp hw hfd,
    recommendOf_historicalLow tz s.historicalData fd, ?_⟩
  intro d hd
  have hmem : d.price ∈ s.historicalData.map GasData.price :=
    List.mem_map_of_mem GasData.price hd
  have h1 := listMin_le_mem _ _ hmem
  refine ⟨h1, ?_⟩
  rw [recommendOf_historicalLow]
  have h2 : ((jsRound (listMin (s.historicalData.map GasData.price)) : Int) : ℚ)
      ≤ listMin (s.historicalData.map GasData.price) + 1/2 := by
    unfold jsRound
    exact_mod_cast Int.floor_le _
  linarith

/-- Witness for C6 (amended) at the 10-gwei single-sample window. -/
theorem claim_C6_witness :
    ∃ r, getGasRecommendation 0 stA = .ok r
      ∧ r.historicalLow = jsRound (listMin (stA.historicalData.map GasData.price))
      ∧ ∀ d ∈ stA.historicalData,
          listMin (stA.historicalData.map GasData.price) ≤ d.price
          ∧ (r.historicalLow : ℚ) ≤ d.price + 1/2 :=
  claim_C6 0 stA pLive { gasPrice := some 20000000000 } rfl (by simp [stA]) rfl

/-- Claim C2 (divergence witness): the code buckets samples with
`Date.getHours()`, the host's local hour, yet labels the rendered window
"UTC".  Under a UTC+1 host (offset +60 min) the single epoch sample
(UTC hour 0) is bucketed into hour 1 and rendered "1:00 - 2:00 UTC", even
though its UTC hour is 0.  Under a UTC host (offset 0) the selection does
agree with the claim: on the three-sample window the non-empty bucket of
smallest mean (hour 5) is rendered "5:00 - 6:00 UTC". -/
theorem claim_C2 :
    (getGasRecommendation 60 stA).toOption.map GasRecommendation.bestTime
        = some "1:00 - 2:00 UTC"
    ∧ getHoursTz 0 0 = 0
    ∧ (getGasRecommendation 0 stB).toOption.map GasRecommendation.bestTime
        = some "5:00 - 6:00 UTC" := by
  have hA := getRec_eq 60 stA pLive { gasPrice := some 20000000000 } rfl (by simp [stA]) rfl
  have hB := getRec_eq 0 stB pLive { gasPrice := some 20000000000 } rfl (by simp [stB]) rfl
  have hbhA : bestHour 60 stA.historicalData = 1 := by
    have h1 : getHoursTz 60 0 = 1 := by decide
    norm_num [bestHour, range24, bucketAvg, hourStats, infLt, stA, h1]
  have hbhB : bestHour 0 stB.historicalData = 5 := by
    have h1 : getHoursTz 0 0 = 0 := by decide
    have h2 : getHoursTz 0 18000000 = 5 := by decide
    norm_num [bestHour, range24, bucketAvg, hourStats, infLt, stB, h1, h2]
  refine ⟨?_, by decide, ?_⟩
  · rw [hA]
    simp only [Except.toOption, Option.map]
    rw [recommendOf_bestTime, hbhA]
    decide
  · rw [hB]
    simp only [Except.toOption, Option.map]
    rw [recommendOf_bestTime, hbhB]
    decide

/-- Claim C8: when every block read succeeds, `initialize` makes exactly
100 fetch attempts, sequentially by descending block number from the
head, and records for block `head - i` a sample with
`timestamp = block.timestamp * 1000` and `price = baseFee / 1e9` (plus
the synthetic priority draw). -/
theorem claim_C8 (p : Provider) (rand : Nat → ℚ) (head : Int) (blkFn : Nat → Block)
    (fee : Nat → Int) (s : OptimizerState)
    (hbn : p.blockNumber = .ok head)
    (hblk : ∀ i : Nat, p.getBlock (head - (i : Int)) = .ok (some (blkFn i)))
    (hfee : ∀ i : Nat, (blkFn i).baseFeePerGas = some (fee i)) :
    (fetchGo p rand head (List.range 100) []).1
        = (List.range 100).map (fun i : Nat => head - (i : Int))
    ∧ ((fetchGo p rand head (List.range 100) []).1).length = 100
    ∧ (initializeGas p rand s).historicalData
        = (List.range 100).map (fun i : Nat =>
            { timestamp := (blkFn i).timestamp * 1000
            , price := (fee i : ℚ) / 1000000000
            , priority := rand i * 2 + 1/2 }) := by
  have h := fetchGo_range_ok p rand head blkFn hblk
  refine ⟨by rw [h], by rw [h]; simp, ?_⟩
  have hini := initializeGas_ok p rand s head
    ((List.range 100).map (fun i => mkSample (rand i) (blkFn i))) hbn (by rw [h])
  rw [hini]
  have hfun : (fun i : Nat => mkSample (rand i) (blkFn i))
      = (fun i : Nat =>
          ({ timestamp := (blkFn i).timestamp * 1000
           , price := (fee i : ℚ) / 1000000000
           , priority := rand i * 2 + 1/2 } : GasData)) := by
    funext i
    simp [mkSample, hfee i, jsNumber]
  rw [hfun]

/-- Witness for C8 at a provider whose every block is the epoch block
with a zero base fee. -/
theorem claim_C8_witness :
    (fetchGo p8 rand0 1000 (List.range 100) []).1
        = (List.range 100).map (fun i : Nat => 1000 - (i : Int))
    ∧ ((fetchGo p8 rand0 1000 (List.range 100) []).1).length = 100
    ∧ (initializeGas p8 rand0 initState).historicalData
        = (List.range 100).map (fun i : Nat =>
            { timestamp := blk8.timestamp * 1000
            , price := ((0 : Int) : ℚ) / 1000000000
            , priority := rand0 i * 2 + 1/2 }) :=
  claim_C8 p8 rand0 1000 (fun _ => blk8) (fun _ => 0) initState rfl
    (fun _ => rfl) (fun _ => rfl)

/-- Claim C10: a retrieved block whose `baseFeePerGas` is null is not
omitted: its sample is stored with price `Number(null)/1e9 = 0`; a window
of such samples makes the minimum 0, so the next recommendation reports
`historicalLow = 0` and `estimatedSavings = 100` (for a nonzero live
price). -/
theorem claim_C10 (p : Provider) (rand : Nat → ℚ) (head : Int) (blkFn : Nat → Block)
    (fd : FeeData) (tz : Int) (s : OptimizerState)
    (hbn : p.blockNumber = .ok head)
    (hblk : ∀ i : Nat, p.getBlock (head - (i : Int)) = .ok (some (blkFn i)))
    (hnull : ∀ i : Nat, (blkFn i).baseFeePerGas = none)
    (hfd : p.feeData = .ok fd)
    (hc : currentGweiOf fd ≠ 0) :
    (∀ (q : ℚ) (b : Block), b.baseFeePerGas = none → (mkSample q b).price = 0)
    ∧ (initializeGas p rand s).historicalData.length = 100
    ∧ (∀ d ∈ (initializeGas p rand s).historicalData, d.price = 0)
    ∧ ∃ r, getGasRecommendation tz (initializeGas p rand s) = .ok r
        ∧ r.historicalLow = 0 ∧ r.estimatedSavings = 100 := by
  have hprice : ∀ (q : ℚ) (b : Block), b.baseFeePerGas = none → (mkSample q b).price = 0 := by
    intro q b hb
    simp [mkSample, hb, jsNumber]
  have h := fetchGo_range_ok p rand head blkFn hblk
  have hini := initializeGas_ok p rand s head
    ((List.range 100).map (fun i => mkSample (rand i) (blkFn i))) hbn (by rw [h])
  have hwin : (initializeGas p rand s).historicalData
      = (List.range 100).map (fun i => mkSample (rand i) (blkFn i)) := by rw [hini]
  have hlen : (initializeGas p rand s).historicalData.length = 100 := by
    rw [hwin]; simp
  have hall : ∀ d ∈ (initializeGas p rand s).historicalData, d.price = 0 := by
    rw [hwin]
    intro d hd
    rcases List.mem_map.mp hd with ⟨i, _, rfl⟩
    exact hprice _ _ (hnull i)
  have hne : (initializeGas p rand s).historicalData ≠ [] := by
    intro h0
    rw [h0] at hlen
    simp at hlen
  have hprov : (initializeGas p rand s).provider = some p :=
    initializeGas_provider p rand s
  have hrec := getRec_eq tz (initializeGas p rand s) p fd hprov hne hfd
  have hmin : listMin ((initializeGas p rand s).historicalData.map GasData.price) = 0 := by
    apply listMin_const
    · intro h0
      rw [List.map_eq_nil_iff] at h0
      exact hne h0
    · intro x hx
      rcases List.mem_map.mp hx with ⟨d, hd, rfl⟩
      exact hall d hd
  refine ⟨hprice, hlen, hall, recommendOf tz (initializeGas p rand s).historicalData fd,
    hrec, ?_, ?_⟩
  · rw [recommendOf_historicalLow, hmin]
    unfold jsRound
    norm_num
  · rw [recommendOf_estimatedSavings, hmin, sub_zero, div_self hc, one_mul]

/-- Witness for C10 at a provider all of whose blocks carry a null base
fee, with a 2-gwei live price. -/
theorem claim_C10_witness :
    (∀ (q : ℚ) (b : Block), b.baseFeePerGas = none → (mkSample q b).price = 0)
    ∧ (initializeGas p10 rand0 initState).historicalData.length = 100
    ∧ (∀ d ∈ (initializeGas p10 rand0 initState).historicalData, d.price = 0)
    ∧ ∃ r, getGasRecommendation 0 (initializeGas p10 rand0 initState) = .ok r
        ∧ r.historicalLow = 0 ∧ r.estimatedSavings = 100 :=
  claim_C10 p10 rand0 500 (fun _ => { timestamp := 0, baseFeePerGas := none })
    { gasPrice := some 2000000000 } 0 initState rfl (fun _ => rfl) (fun _ => rfl) rfl
    (by norm_num [currentGweiOf, jsNumber])

end GasSampler
